import Mathlib

/-!
Shallow embedding of the Editor.js Alert block plugin (`src/index.js`):
the Catalog constants, the configuration-resolution getters, the state
normalization and read-back getters, the mutation callbacks, `save`,
`validate` and `renderSettings`, together with theorems settling the
specification claims about them.

JavaScript conventions modelled explicitly:
- optional configuration / data fields are `Option` values (`none` =
  the field is absent / `undefined`);
- JS truthiness of a string (`s || dflt`, `if (cfg.field)`) is the test
  `s ≠ ""` on a present field;
- `typeof data !== 'object'` is `false` exactly for JS `null` and for
  object values (a separate inductive models the persisted input);
- a thrown `TypeError` is `Except.error ()`;
- `console.warn` is recorded as a `Bool` component of the result.
-/

namespace Alert

/-- Source `Alert.ALERT_TYPES` (src/index.js:59-61). -/
def ALERT_TYPES : List String := ["info", "success", "blocked", "warning", "danger"]

/-- Source `Alert.DEFAULT_ALERT_TYPE` (src/index.js:70-72). -/
def DEFAULT_ALERT_TYPE : String := "info"

/-- Source `Alert.ALERT_STYLES` (src/index.js:81-83). -/
def ALERT_STYLES : List String := ["pastel", "solid", "outlined"]

/-- Source `Alert.DEFAULT_ALERT_STYLE` (src/index.js:92-94). -/
def DEFAULT_ALERT_STYLE : String := "pastel"

/-- Source `Alert.ALIGN_TYPES` (src/index.js:103-105). -/
def ALIGN_TYPES : List String := ["left", "center", "right", "justify"]

/-- Source `Alert.DEFAULT_ALIGN_TYPE` (src/index.js:114-116). -/
def DEFAULT_ALIGN_TYPE : String := "left"

/-- The host-supplied configuration object (`this._config`), all fields
optional (src/index.js:15-21, 154-169). `none` models an absent field. -/
structure Config where
  alertTypes : Option (List String) := none
  defaultAlertType : Option String := none
  alertStyles : Option (List String) := none
  defaultAlertStyle : Option String := none
  alignTypes : Option (List String) := none
  defaultAlignType : Option String := none

/-- Getter `get availableTypes` (src/index.js:178-182): if `config.alertTypes`
is supplied (any array is JS-truthy), filter the Catalog list by
membership in it, keeping Catalog order; otherwise the full Catalog. -/
def availableTypes (cfg : Config) : List String :=
  match cfg.alertTypes with
  | some allowed => ALERT_TYPES.filter (fun type => decide (type ∈ allowed))
  | none => ALERT_TYPES

/-- Getter `get availableStyles` (src/index.js:212-216). -/
def availableStyles (cfg : Config) : List String :=
  match cfg.alertStyles with
  | some allowed => ALERT_STYLES.filter (fun style => decide (style ∈ allowed))
  | none => ALERT_STYLES

/-- Getter `get availableAlignTypes` (src/index.js:246-250). -/
def availableAlignTypes (cfg : Config) : List String :=
  match cfg.alignTypes with
  | some allowed => ALIGN_TYPES.filter (fun align => decide (align ∈ allowed))
  | none => ALIGN_TYPES

/-- Getter `get userDefaultType` (src/index.js:191-203). The `Bool` component
records whether `console.warn` ("invalid default") fired. A present but
empty string is JS-falsy, so the `if (this._config.defaultAlertType)`
guard skips straight to the hardcoded Catalog default. -/
def userDefaultTypeW (cfg : Config) : String × Bool :=
  match cfg.defaultAlertType with
  | some d =>
      if d = "" then (DEFAULT_ALERT_TYPE, false)
      else
        match (availableTypes cfg).find? (fun type => type == d) with
        | some userSpecified => (userSpecified, false)
        | none => (DEFAULT_ALERT_TYPE, true)
  | none => (DEFAULT_ALERT_TYPE, false)

/-- The value returned by `get userDefaultType`. -/
def userDefaultType (cfg : Config) : String := (userDefaultTypeW cfg).1

/-- Getter `get userDefaultStyle` (src/index.js:225-237). -/
def userDefaultStyleW (cfg : Config) : String × Bool :=
  match cfg.defaultAlertStyle with
  | some d =>
      if d = "" then (DEFAULT_ALERT_STYLE, false)
      else
        match (availableStyles cfg).find? (fun style => style == d) with
        | some userSpecified => (userSpecified, false)
        | none => (DEFAULT_ALERT_STYLE, true)
  | none => (DEFAULT_ALERT_STYLE, false)

/-- The value returned by `get userDefaultStyle`. -/
def userDefaultStyle (cfg : Config) : String := (userDefaultStyleW cfg).1

/-- Getter `get userDefaultAlignType` (src/index.js:259-271). -/
def userDefaultAlignTypeW (cfg : Config) : String × Bool :=
  match cfg.defaultAlignType with
  | some d =>
      if d = "" then (DEFAULT_ALIGN_TYPE, false)
      else
        match (availableAlignTypes cfg).find? (fun align => align == d) with
        | some userSpecified => (userSpecified, false)
        | none => (DEFAULT_ALIGN_TYPE, true)
  | none => (DEFAULT_ALIGN_TYPE, false)

/-- The value returned by `get userDefaultAlignType`. -/
def userDefaultAlignType (cfg : Config) : String := (userDefaultAlignTypeW cfg).1

/-- The fields a persisted-data object may carry (src/index.js:277,
`{ text; alert; alertStyle; align }`); `none` models an absent field.
The persisted format stores strings only (README / save()). -/
structure RawFields where
  text : Option String := none
  alert : Option String := none
  alertStyle : Option String := none
  align : Option String := none

/-- The raw `data` argument handed to the constructor: a JS value that
is `null`, `undefined`, an object, or some other primitive
(string/number/boolean/function — anything with `typeof ≠ 'object'`). -/
inductive PersistedInput where
  | jnull
  | jundefined
  | jobject (fields : RawFields)
  | jother

/-- JS `typeof data === 'object'`: true for objects AND for `null`. -/
def jsTypeofIsObject : PersistedInput → Bool
  | .jnull => true
  | .jobject _ => true
  | _ => false

/-- The normalized block data `this._data`
(src/index.js:279-290 return type). -/
structure NormData where
  text : String
  alert : String
  alertStyle : String
  align : String
deriving DecidableEq, Repr

/-- JS `field || dflt` for an optional string field: an absent field or
an empty string is falsy and yields the default. -/
def jsOr (v : Option String) (dflt : String) : String :=
  match v with
  | some s => if s = "" then dflt else s
  | none => dflt

/-- Method `_normalizeData(data)` (src/index.js:279-290). The guard
`typeof data !== 'object'` replaces non-objects by `{}` — but JS `null`
passes the guard (its `typeof` IS `'object'`), so `data.text` then
throws a `TypeError`, modelled as `Except.error ()`. -/
def _normalizeData (cfg : Config) (data : PersistedInput) : Except Unit NormData :=
  match (if jsTypeofIsObject data then data else .jobject {}) with
  | .jnull => .error ()
  | .jobject f =>
      .ok { text := jsOr f.text ""
          , alert := jsOr f.alert (userDefaultType cfg)
          , alertStyle := jsOr f.alertStyle (userDefaultStyle cfg)
          , align := jsOr f.align (userDefaultAlignType cfg) }
  | _ =>
      .ok { text := "", alert := userDefaultType cfg
          , alertStyle := userDefaultStyle cfg, align := userDefaultAlignType cfg }

/-- Getter `get currentType` (src/index.js:298-304): re-validate `_data.alert`
against the available set on every read, falling back to the resolved
default. -/
def currentType (cfg : Config) (d : NormData) : String :=
  match (availableTypes cfg).find? (fun type => type == d.alert) with
  | some alertType => alertType
  | none => userDefaultType cfg

/-- Getter `get currentStyle` (src/index.js:312-318). -/
def currentStyle (cfg : Config) (d : NormData) : String :=
  match (availableStyles cfg).find? (fun style => style == d.alertStyle) with
  | some alertStyle => alertStyle
  | none => userDefaultStyle cfg

/-- Getter `get currentAlignType` (src/index.js:326-332). -/
def currentAlignType (cfg : Config) (d : NormData) : String :=
  match (availableAlignTypes cfg).find? (fun align => align == d.align) with
  | some alignType => alignType
  | none => userDefaultAlignType cfg

/-- Constant `this._CSS.wrapperForAlertContent` (src/index.js:164). -/
def wrapperForAlertContent : String := "ce-alert-content"

/-- Constant `this._CSS.wrapperForAlignment` (src/index.js:166). -/
def wrapperForAlignment (alignType : String) : String :=
  "ce-alert-align-" ++ alignType

/-- DOMTokenList `classList.add`: a no-op when the token is present,
otherwise appends it. -/
def classListAdd (cs : List String) (c : String) : List String :=
  if c ∈ cs then cs else cs ++ [c]

/-- DOMTokenList `classList.remove`: drops the token. -/
def classListRemove (cs : List String) (c : String) : List String :=
  cs.filter (fun x => decide (x ≠ c))

/-- The `_alertContent` element built by `_getElement`
(src/index.js:383-389): its `innerHTML` (`this._data.text || ''`) and
its class list (`ce-alert-content` plus the alignment class for the
current alignment). Icon and outer container are presentation-only and
not read back by any claimed operation. -/
def getElementContent (cfg : Config) (d : NormData) : String × List String :=
  ( if d.text = "" then "" else d.text
  , classListAdd (classListAdd [] wrapperForAlertContent)
      (wrapperForAlignment (currentAlignType cfg d)) )

/-- One block instance: its configuration, its `this._data`, the live
`_alertContent` element (innerHTML + class list), and whether the
block's element is attached to a parent node
(`this._element.parentNode`, consulted by the type/style setters). -/
structure Block where
  cfg : Config
  data : NormData
  contentHTML : String
  contentClasses : List String
  mounted : Bool

/-- The constructor (src/index.js:154-169): normalize the persisted
data (which can throw on `null`), then build the element. -/
def loadBlock (cfg : Config) (data : PersistedInput) (mounted : Bool) :
    Except Unit Block :=
  match _normalizeData cfg data with
  | .error e => .error e
  | .ok d =>
      let content := getElementContent cfg d
      .ok { cfg := cfg, data := d, contentHTML := content.1
          , contentClasses := content.2, mounted := mounted }

/-- Method `_setAlertType(newType)` (src/index.js:401-411): capture the live
`innerHTML` into `_data.text`, set `_data.alert` to
`newType || userDefaultType`, and — when `newType !== undefined` and
the element is mounted — rebuild the element in place. -/
def _setAlertType (b : Block) (newType : Option String) : Block :=
  let d0 := { b.data with text := b.contentHTML }
  let d := { d0 with alert := jsOr newType (userDefaultType b.cfg) }
  if newType.isSome && b.mounted then
    let content := getElementContent b.cfg d
    { b with data := d, contentHTML := content.1, contentClasses := content.2 }
  else
    { b with data := d }

/-- Method `_setAlertStyle(newStyle)` (src/index.js:418-428). -/
def _setAlertStyle (b : Block) (newStyle : Option String) : Block :=
  let d0 := { b.data with text := b.contentHTML }
  let d := { d0 with alertStyle := jsOr newStyle (userDefaultStyle b.cfg) }
  if newStyle.isSome && b.mounted then
    let content := getElementContent b.cfg d
    { b with data := d, contentHTML := content.1, contentClasses := content.2 }
  else
    { b with data := d }

/-- Method `_setAlignType(newAlign)` (src/index.js:435-446): assign directly
(no text capture, no default substitution), then for each Catalog
alignment remove its class and re-add it when it equals `newAlign`. -/
def _setAlignType (b : Block) (newAlign : String) : Block :=
  let d := { b.data with align := newAlign }
  let classes := ALIGN_TYPES.foldl
    (fun cs align =>
      let alignClass := wrapperForAlignment align
      let cs := classListRemove cs alignClass
      if newAlign = align then classListAdd cs alignClass else cs)
    b.contentClasses
  { b with data := d, contentClasses := classes }

/-- Method `save()` (src/index.js:462-469): read the text back from the live
element and the three dimensions through the re-validating getters. -/
def save (b : Block) : NormData :=
  { text := b.contentHTML
  , alert := currentType b.cfg b.data
  , alertStyle := currentStyle b.cfg b.data
  , align := currentAlignType b.cfg b.data }

/-- Method `validate(savedData)` (src/index.js:479-481). -/
def validate (savedData : NormData) : Bool :=
  savedData.text.trim ≠ ""

/-- Re-persisting what `save()` returned: all four fields present. -/
def savedToInput (d : NormData) : PersistedInput :=
  .jobject { text := some d.text, alert := some d.alert
           , alertStyle := some d.alertStyle, align := some d.align }

/-- One settings-menu action (src/index.js:503-510). `icon`, `label`
and `onActivate` are host-facing (SVG string, i18n label, closure);
they are determined by the dimension member the closure passes to the
setter, recorded here as `value`. -/
structure Setting where
  value : String
  isActive : Bool
  closeOnActivate : Bool
  toggle : String
deriving DecidableEq, Repr

/-- Method `renderSettings()` (src/index.js:517-540): one action per available
member of each dimension, in available-set (= Catalog) order, active
iff the member equals the current value; groups tagged `'alert'`,
`'alert-style'`, `'align'`. -/
def renderSettings (cfg : Config) (d : NormData) : List Setting :=
  (availableTypes cfg).map (fun type =>
    { value := type, isActive := type == currentType cfg d
    , closeOnActivate := true, toggle := "alert" })
  ++ (availableStyles cfg).map (fun style =>
    { value := style, isActive := style == currentStyle cfg d
    , closeOnActivate := true, toggle := "alert-style" })
  ++ (availableAlignTypes cfg).map (fun align =>
    { value := align, isActive := align == currentAlignType cfg d
    , closeOnActivate := true, toggle := "align" })

/-- A settings-menu invocation: each action calls one of the three
setters with the member it was built from (an arbitrary string here,
covering any caller). -/
inductive TuneOp where
  | setType (s : Option String)
  | setStyle (s : Option String)
  | setAlign (s : String)

/-- Apply one settings action to a block. -/
def applyOp (b : Block) : TuneOp → Block
  | .setType s => _setAlertType b s
  | .setStyle s => _setAlertStyle b s
  | .setAlign s => _setAlignType b s

/-- Apply a sequence of settings actions. -/
def applyOps (b : Block) (ops : List TuneOp) : Block :=
  ops.foldl applyOp b

/-! ### Helper lemmas -/

theorem find?_beq_self (l : List String) (a : String) (h : a ∈ l) :
    l.find? (fun x => x == a) = some a := by
  induction l with
  | nil => cases h
  | cons x xs ih =>
      by_cases hx : x = a
      · subst hx; simp [List.find?]
      · have hbx : (x == a) = false := beq_eq_false_iff_ne.mpr hx
        have h2 : a ∈ xs := by
          rcases List.mem_cons.mp h with h1 | h1
          · exact absurd h1.symm hx
          · exact h1
        simp [List.find?, hbx, ih h2]

theorem find?_beq_none (l : List String) (a : String) (h : a ∉ l) :
    l.find? (fun x => x == a) = none := by
  rw [List.find?_eq_none]
  intro x hx hbeq
  exact h (beq_iff_eq.mp hbeq ▸ hx)

/-- Reading `currentType` in closed form: the stored value when available,
else the resolved default. -/
theorem currentType_eq (cfg : Config) (d : NormData) :
    currentType cfg d =
      if d.alert ∈ availableTypes cfg then d.alert else userDefaultType cfg := by
  unfold currentType
  by_cases h : d.alert ∈ availableTypes cfg
  · rw [find?_beq_self _ _ h, if_pos h]
  · rw [find?_beq_none _ _ h, if_neg h]

/-- Reading `currentStyle` in closed form. -/
theorem currentStyle_eq (cfg : Config) (d : NormData) :
    currentStyle cfg d =
      if d.alertStyle ∈ availableStyles cfg then d.alertStyle
      else userDefaultStyle cfg := by
  unfold currentStyle
  by_cases h : d.alertStyle ∈ availableStyles cfg
  · rw [find?_beq_self _ _ h, if_pos h]
  · rw [find?_beq_none _ _ h, if_neg h]

/-- Reading `currentAlignType` in closed form. -/
theorem currentAlignType_eq (cfg : Config) (d : NormData) :
    currentAlignType cfg d =
      if d.align ∈ availableAlignTypes cfg then d.align
      else userDefaultAlignType cfg := by
  unfold currentAlignType
  by_cases h : d.align ∈ availableAlignTypes cfg
  · rw [find?_beq_self _ _ h, if_pos h]
  · rw [find?_beq_none _ _ h, if_neg h]

theorem mem_availableTypes (cfg : Config) {x : String}
    (h : x ∈ availableTypes cfg) : x ∈ ALERT_TYPES := by
  unfold availableTypes at h
  cases hc : cfg.alertTypes with
  | none => rw [hc] at h; exact h
  | some allowed => rw [hc] at h; exact List.mem_of_mem_filter h

theorem mem_availableStyles (cfg : Config) {x : String}
    (h : x ∈ availableStyles cfg) : x ∈ ALERT_STYLES := by
  unfold availableStyles at h
  cases hc : cfg.alertStyles with
  | none => rw [hc] at h; exact h
  | some allowed => rw [hc] at h; exact List.mem_of_mem_filter h

theorem mem_availableAlignTypes (cfg : Config) {x : String}
    (h : x ∈ availableAlignTypes cfg) : x ∈ ALIGN_TYPES := by
  unfold availableAlignTypes at h
  cases hc : cfg.alignTypes with
  | none => rw [hc] at h; exact h
  | some allowed => rw [hc] at h; exact List.mem_of_mem_filter h

/-- The resolved default type is the hardcoded Catalog default or a
member of the available set. -/
theorem userDefaultType_cases (cfg : Config) :
    userDefaultType cfg = DEFAULT_ALERT_TYPE ∨
      userDefaultType cfg ∈ availableTypes cfg := by
  unfold userDefaultType userDefaultTypeW
  split
  · split
    · left; rfl
    · split
      · rename_i u hf
        right; exact List.mem_of_find?_eq_some hf
      · left; rfl
  · left; rfl

/-- The resolved default style is the hardcoded Catalog default or a
member of the available set. -/
theorem userDefaultStyle_cases (cfg : Config) :
    userDefaultStyle cfg = DEFAULT_ALERT_STYLE ∨
      userDefaultStyle cfg ∈ availableStyles cfg := by
  unfold userDefaultStyle userDefaultStyleW
  split
  · split
    · left; rfl
    · split
      · rename_i u hf
        right; exact List.mem_of_find?_eq_some hf
      · left; rfl
  · left; rfl

/-- The resolved default alignment is the hardcoded Catalog default or
a member of the available set. -/
theorem userDefaultAlignType_cases (cfg : Config) :
    userDefaultAlignType cfg = DEFAULT_ALIGN_TYPE ∨
      userDefaultAlignType cfg ∈ availableAlignTypes cfg := by
  unfold userDefaultAlignType userDefaultAlignTypeW
  split
  · split
    · left; rfl
    · split
      · rename_i u hf
        right; exact List.mem_of_find?_eq_some hf
      · left; rfl
  · left; rfl

/-- The resolved default type is never the empty string (it is either a
Catalog member or the hardcoded `"info"`). -/
theorem userDefaultType_ne_empty (cfg : Config) : userDefaultType cfg ≠ "" := by
  rcases userDefaultType_cases cfg with h | h
  · rw [h]; decide
  · have hm := mem_availableTypes cfg h
    intro he
    rw [he] at hm
    revert hm; decide

/-- The resolved default style is never the empty string. -/
theorem userDefaultStyle_ne_empty (cfg : Config) : userDefaultStyle cfg ≠ "" := by
  rcases userDefaultStyle_cases cfg with h | h
  · rw [h]; decide
  · have hm := mem_availableStyles cfg h
    intro he
    rw [he] at hm
    revert hm; decide

/-- The resolved default alignment is never the empty string. -/
theorem userDefaultAlignType_ne_empty (cfg : Config) :
    userDefaultAlignType cfg ≠ "" := by
  rcases userDefaultAlignType_cases cfg with h | h
  · rw [h]; decide
  · have hm := mem_availableAlignTypes cfg h
    intro he
    rw [he] at hm
    revert hm; decide

theorem userDefaultTypeW_valid (cfg : Config) (d : String)
    (hc : cfg.defaultAlertType = some d) (hd : d ≠ "")
    (hm : d ∈ availableTypes cfg) : userDefaultTypeW cfg = (d, false) := by
  unfold userDefaultTypeW
  rw [hc]
  simp only [if_neg hd, find?_beq_self _ _ hm]

theorem userDefaultTypeW_invalid (cfg : Config) (d : String)
    (hc : cfg.defaultAlertType = some d) (hd : d ≠ "")
    (hm : d ∉ availableTypes cfg) :
    userDefaultTypeW cfg = (DEFAULT_ALERT_TYPE, true) := by
  unfold userDefaultTypeW
  rw [hc]
  simp only [if_neg hd, find?_beq_none _ _ hm]

theorem userDefaultTypeW_unspecified (cfg : Config)
    (hc : cfg.defaultAlertType = none ∨ cfg.defaultAlertType = some "") :
    userDefaultTypeW cfg = (DEFAULT_ALERT_TYPE, false) := by
  unfold userDefaultTypeW
  rcases hc with hc | hc
  · rw [hc]
  · rw [hc]; simp

theorem userDefaultStyleW_valid (cfg : Config) (d : String)
    (hc : cfg.defaultAlertStyle = some d) (hd : d ≠ "")
    (hm : d ∈ availableStyles cfg) : userDefaultStyleW cfg = (d, false) := by
  unfold userDefaultStyleW
  rw [hc]
  simp only [if_neg hd, find?_beq_self _ _ hm]

theorem userDefaultStyleW_invalid (cfg : Config) (d : String)
    (hc : cfg.defaultAlertStyle = some d) (hd : d ≠ "")
    (hm : d ∉ availableStyles cfg) :
    userDefaultStyleW cfg = (DEFAULT_ALERT_STYLE, true) := by
  unfold userDefaultStyleW
  rw [hc]
  simp only [if_neg hd, find?_beq_none _ _ hm]

theorem userDefaultStyleW_unspecified (cfg : Config)
    (hc : cfg.defaultAlertStyle = none ∨ cfg.defaultAlertStyle = some "") :
    userDefaultStyleW cfg = (DEFAULT_ALERT_STYLE, false) := by
  unfold userDefaultStyleW
  rcases hc with hc | hc
  · rw [hc]
  · rw [hc]; simp

theorem userDefaultAlignTypeW_valid (cfg : Config) (d : String)
    (hc : cfg.defaultAlignType = some d) (hd : d ≠ "")
    (hm : d ∈ availableAlignTypes cfg) :
    userDefaultAlignTypeW cfg = (d, false) := by
  unfold userDefaultAlignTypeW
  rw [hc]
  simp only [if_neg hd, find?_beq_self _ _ hm]

theorem userDefaultAlignTypeW_invalid (cfg : Config) (d : String)
    (hc : cfg.defaultAlignType = some d) (hd : d ≠ "")
    (hm : d ∉ availableAlignTypes cfg) :
    userDefaultAlignTypeW cfg = (DEFAULT_ALIGN_TYPE, true) := by
  unfold userDefaultAlignTypeW
  rw [hc]
  simp only [if_neg hd, find?_beq_none _ _ hm]

theorem userDefaultAlignTypeW_unspecified (cfg : Config)
    (hc : cfg.defaultAlignType = none ∨ cfg.defaultAlignType = some "") :
    userDefaultAlignTypeW cfg = (DEFAULT_ALIGN_TYPE, false) := by
  unfold userDefaultAlignTypeW
  rcases hc with hc | hc
  · rw [hc]
  · rw [hc]; simp

/-! ### Claim theorems -/

/-- C1: for each dimension, a specified default that is a member of the
available set is used as-is (no diagnostic); a specified default outside
the available set triggers the diagnostic and falls through to the
Catalog's hardcoded default; an unspecified (absent or JS-falsy) default
resolves to the Catalog's hardcoded default with no diagnostic — in the
last two cases unconditionally, whether or not the hardcoded default is
itself a member of the available set. -/
theorem default_resolution_per_dimension (cfg : Config) :
    ((∀ d, cfg.defaultAlertType = some d → d ≠ "" →
        d ∈ availableTypes cfg → userDefaultTypeW cfg = (d, false)) ∧
     (∀ d, cfg.defaultAlertType = some d → d ≠ "" →
        d ∉ availableTypes cfg →
        userDefaultTypeW cfg = (DEFAULT_ALERT_TYPE, true)) ∧
     ((cfg.defaultAlertType = none ∨ cfg.defaultAlertType = some "") →
        userDefaultTypeW cfg = (DEFAULT_ALERT_TYPE, false))) ∧
    ((∀ d, cfg.defaultAlertStyle = some d → d ≠ "" →
        d ∈ availableStyles cfg → userDefaultStyleW cfg = (d, false)) ∧
     (∀ d, cfg.defaultAlertStyle = some d → d ≠ "" →
        d ∉ availableStyles cfg →
        userDefaultStyleW cfg = (DEFAULT_ALERT_STYLE, true)) ∧
     ((cfg.defaultAlertStyle = none ∨ cfg.defaultAlertStyle = some "") →
        userDefaultStyleW cfg = (DEFAULT_ALERT_STYLE, false))) ∧
    ((∀ d, cfg.defaultAlignType = some d → d ≠ "" →
        d ∈ availableAlignTypes cfg → userDefaultAlignTypeW cfg = (d, false)) ∧
     (∀ d, cfg.defaultAlignType = some d → d ≠ "" →
        d ∉ availableAlignTypes cfg →
        userDefaultAlignTypeW cfg = (DEFAULT_ALIGN_TYPE, true)) ∧
     ((cfg.defaultAlignType = none ∨ cfg.defaultAlignType = some "") →
        userDefaultAlignTypeW cfg = (DEFAULT_ALIGN_TYPE, false))) :=
  ⟨⟨fun d hc hd hm => userDefaultTypeW_valid cfg d hc hd hm,
    fun d hc hd hm => userDefaultTypeW_invalid cfg d hc hd hm,
    fun hc => userDefaultTypeW_unspecified cfg hc⟩,
   ⟨fun d hc hd hm => userDefaultStyleW_valid cfg d hc hd hm,
    fun d hc hd hm => userDefaultStyleW_invalid cfg d hc hd hm,
    fun hc => userDefaultStyleW_unspecified cfg hc⟩,
   ⟨fun d hc hd hm => userDefaultAlignTypeW_valid cfg d hc hd hm,
    fun d hc hd hm => userDefaultAlignTypeW_invalid cfg d hc hd hm,
    fun hc => userDefaultAlignTypeW_unspecified cfg hc⟩⟩

/-- C1 witness: a configuration exercising all three resolution rules —
a valid type default (`"success"`), a style default (`"pastel"`)
excluded by the style allow-list, and no alignment default. -/
theorem default_resolution_per_dimension_witness :
    userDefaultTypeW
      { defaultAlertType := some "success", alertStyles := some ["solid"]
      , defaultAlertStyle := some "pastel" } = ("success", false) ∧
    userDefaultStyleW
      { defaultAlertType := some "success", alertStyles := some ["solid"]
      , defaultAlertStyle := some "pastel" } = (DEFAULT_ALERT_STYLE, true) ∧
    userDefaultAlignTypeW
      { defaultAlertType := some "success", alertStyles := some ["solid"]
      , defaultAlertStyle := some "pastel" } = (DEFAULT_ALIGN_TYPE, false) :=
  ⟨(default_resolution_per_dimension _).1.1 "success" rfl (by decide) (by decide),
   (default_resolution_per_dimension _).2.1.2.1 "pastel" rfl (by decide) (by decide),
   (default_resolution_per_dimension _).2.2.2.2 (Or.inl rfl)⟩

/-- C2 counterexample: under
`{alertTypes:["success","danger"], defaultAlertType:"info"}` the
resolved default type is NOT `"success"` — the code returns the
hardcoded Catalog default `"info"` even though it is unavailable. -/
theorem scenario2_counterexample :
    userDefaultType
      { alertTypes := some ["success", "danger"]
      , defaultAlertType := some "info" } ≠ "success" := by decide

/-- C2 (amended): under
`{alertTypes:["success","danger"], defaultAlertType:"info"}` the
available type set is `["success","danger"]` in Catalog order and the
resolved default type is the Catalog's hardcoded `"info"` (a value
outside the available set), with the invalid-default diagnostic
emitted. -/
theorem scenario2_amended :
    availableTypes
        { alertTypes := some ["success", "danger"]
        , defaultAlertType := some "info" } = ["success", "danger"] ∧
    userDefaultTypeW
        { alertTypes := some ["success", "danger"]
        , defaultAlertType := some "info" } = (DEFAULT_ALERT_TYPE, true) := by
  exact ⟨by decide, by decide⟩

/-- C4: for every configuration and dimension, the available set is the
full Catalog list when the allow-list is omitted, and otherwise contains
exactly the Catalog members that the allow-list also contains, ordered
as a sublist of the Catalog (never in allow-list order). -/
theorem available_sets_spec (cfg : Config) :
    ((cfg.alertTypes = none → availableTypes cfg = ALERT_TYPES) ∧
     (∀ l, cfg.alertTypes = some l →
        List.Sublist (availableTypes cfg) ALERT_TYPES ∧
        ∀ x, x ∈ availableTypes cfg ↔ x ∈ ALERT_TYPES ∧ x ∈ l)) ∧
    ((cfg.alertStyles = none → availableStyles cfg = ALERT_STYLES) ∧
     (∀ l, cfg.alertStyles = some l →
        List.Sublist (availableStyles cfg) ALERT_STYLES ∧
        ∀ x, x ∈ availableStyles cfg ↔ x ∈ ALERT_STYLES ∧ x ∈ l)) ∧
    ((cfg.alignTypes = none → availableAlignTypes cfg = ALIGN_TYPES) ∧
     (∀ l, cfg.alignTypes = some l →
        List.Sublist (availableAlignTypes cfg) ALIGN_TYPES ∧
        ∀ x, x ∈ availableAlignTypes cfg ↔ x ∈ ALIGN_TYPES ∧ x ∈ l)) := by
  refine ⟨⟨?_, ?_⟩, ⟨?_, ?_⟩, ⟨?_, ?_⟩⟩
  · intro h; unfold availableTypes; rw [h]
  · intro l h
    unfold availableTypes
    rw [h]
    exact ⟨List.filter_sublist _, fun x => by simp [List.mem_filter]⟩
  · intro h; unfold availableStyles; rw [h]
  · intro l h
    unfold availableStyles
    rw [h]
    exact ⟨List.filter_sublist _, fun x => by simp [List.mem_filter]⟩
  · intro h; unfold availableAlignTypes; rw [h]
  · intro l h
    unfold availableAlignTypes
    rw [h]
    exact ⟨List.filter_sublist _, fun x => by simp [List.mem_filter]⟩

/-- C4 witness: an allow-list given in reverse Catalog order still
yields a Catalog-ordered available set; an omitted style allow-list
yields the full style Catalog. -/
theorem available_sets_spec_witness :
    List.Sublist (availableTypes { alertTypes := some ["danger", "success"] })
      ALERT_TYPES ∧
    ("success" ∈ availableTypes { alertTypes := some ["danger", "success"] } ↔
      "success" ∈ ALERT_TYPES ∧ "success" ∈ ["danger", "success"]) ∧
    availableStyles { alertTypes := some ["danger", "success"] } = ALERT_STYLES :=
  ⟨((available_sets_spec _).1.2 ["danger", "success"] rfl).1,
   ((available_sets_spec _).1.2 ["danger", "success"] rfl).2 "success",
   (available_sets_spec _).2.1.1 rfl⟩

/-- C3: for each dimension, the (re-validated) current value of a block
state freshly constructed from a persisted object equals the persisted
value when that value is a member of the available set, and the resolved
default otherwise (including when the field is absent or empty). -/
theorem load_revalidates (cfg : Config) (f : RawFields) (d : NormData)
    (h : _normalizeData cfg (.jobject f) = Except.ok d) :
    (currentType cfg d =
      match f.alert with
      | some v => if v ∈ availableTypes cfg then v else userDefaultType cfg
      | none => userDefaultType cfg) ∧
    (currentStyle cfg d =
      match f.alertStyle with
      | some v => if v ∈ availableStyles cfg then v else userDefaultStyle cfg
      | none => userDefaultStyle cfg) ∧
    (currentAlignType cfg d =
      match f.align with
      | some v =>
          if v ∈ availableAlignTypes cfg then v else userDefaultAlignType cfg
      | none => userDefaultAlignType cfg) := by
  have hd : ({ text := jsOr f.text ""
             , alert := jsOr f.alert (userDefaultType cfg)
             , alertStyle := jsOr f.alertStyle (userDefaultStyle cfg)
             , align := jsOr f.align (userDefaultAlignType cfg) } : NormData) = d :=
    Except.ok.inj h
  subst hd
  refine ⟨?_, ?_, ?_⟩
  · rw [currentType_eq]
    cases hf : f.alert with
    | none => simp [jsOr, ite_self]
    | some v =>
        by_cases hv : v = ""
        · subst hv
          have hne : ("" : String) ∉ availableTypes cfg := fun hmem => by
            have := mem_availableTypes cfg hmem
            revert this; decide
          simp [jsOr, ite_self, if_neg hne]
        · simp [jsOr, hv]
  · rw [currentStyle_eq]
    cases hf : f.alertStyle with
    | none => simp [jsOr, ite_self]
    | some v =>
        by_cases hv : v = ""
        · subst hv
          have hne : ("" : String) ∉ availableStyles cfg := fun hmem => by
            have := mem_availableStyles cfg hmem
            revert this; decide
          simp [jsOr, ite_self, if_neg hne]
        · simp [jsOr, hv]
  · rw [currentAlignType_eq]
    cases hf : f.align with
    | none => simp [jsOr, ite_self]
    | some v =>
        by_cases hv : v = ""
        · subst hv
          have hne : ("" : String) ∉ availableAlignTypes cfg := fun hmem => by
            have := mem_availableAlignTypes cfg hmem
            revert this; decide
          simp [jsOr, ite_self, if_neg hne]
        · simp [jsOr, hv]

/-- C3 witness (Scenario 3): persisted `{alert:"danger"}` loaded when
`alertTypes` is restricted to `["info"]` yields current type `"info"`,
not `"danger"`. -/
theorem load_revalidates_witness :
    _normalizeData { alertTypes := some ["info"] }
        (.jobject { alert := some "danger" }) =
      Except.ok { text := "", alert := "danger"
                , alertStyle := "pastel", align := "left" } ∧
    currentType { alertTypes := some ["info"] }
        { text := "", alert := "danger"
        , alertStyle := "pastel", align := "left" } = "info" := by
  refine ⟨rfl, ?_⟩
  rw [(load_revalidates { alertTypes := some ["info"] }
        { alert := some "danger" }
        { text := "", alert := "danger", alertStyle := "pastel", align := "left" }
        rfl).1]
  decide

/-- C7: `_normalizeData` does NOT treat JS `null` as empty data — the
`typeof data !== 'object'` guard admits `null` (whose `typeof` IS
`'object'`), so the subsequent `data.text` read throws a `TypeError`.
Genuinely non-object inputs (`undefined`, strings/numbers/booleans) are
normalized to well-defined defaults without error, which is the evident
intent of the guard. -/
theorem normalize_null_throws :
    _normalizeData {} PersistedInput.jnull = Except.error () ∧
    _normalizeData {} PersistedInput.jundefined =
      Except.ok { text := "", alert := "info"
                , alertStyle := "pastel", align := "left" } ∧
    _normalizeData {} PersistedInput.jother =
      Except.ok { text := "", alert := "info"
                , alertStyle := "pastel", align := "left" } :=
  ⟨rfl, rfl, rfl⟩

theorem if_empty_self (s : String) : (if s = "" then "" else s) = s := by
  by_cases h : s = "" <;> simp [h]

theorem currentType_mem_or_default (cfg : Config) (d : NormData) :
    currentType cfg d ∈ availableTypes cfg ∨
      currentType cfg d = userDefaultType cfg := by
  unfold currentType
  cases hf : (availableTypes cfg).find? (fun type => type == d.alert) with
  | some u => left; exact List.mem_of_find?_eq_some hf
  | none => right; rfl

theorem currentStyle_mem_or_default (cfg : Config) (d : NormData) :
    currentStyle cfg d ∈ availableStyles cfg ∨
      currentStyle cfg d = userDefaultStyle cfg := by
  unfold currentStyle
  cases hf : (availableStyles cfg).find? (fun style => style == d.alertStyle) with
  | some u => left; exact List.mem_of_find?_eq_some hf
  | none => right; rfl

theorem currentAlignType_mem_or_default (cfg : Config) (d : NormData) :
    currentAlignType cfg d ∈ availableAlignTypes cfg ∨
      currentAlignType cfg d = userDefaultAlignType cfg := by
  unfold currentAlignType
  cases hf : (availableAlignTypes cfg).find? (fun align => align == d.align) with
  | some u => left; exact List.mem_of_find?_eq_some hf
  | none => right; rfl

theorem currentType_ne_empty (cfg : Config) (d : NormData) :
    currentType cfg d ≠ "" := by
  rcases currentType_mem_or_default cfg d with h | h
  · intro he
    have := mem_availableTypes cfg h
    rw [he] at this
    revert this; decide
  · rw [h]; exact userDefaultType_ne_empty cfg

theorem currentStyle_ne_empty (cfg : Config) (d : NormData) :
    currentStyle cfg d ≠ "" := by
  rcases currentStyle_mem_or_default cfg d with h | h
  · intro he
    have := mem_availableStyles cfg h
    rw [he] at this
    revert this; decide
  · rw [h]; exact userDefaultStyle_ne_empty cfg

theorem currentAlignType_ne_empty (cfg : Config) (d : NormData) :
    currentAlignType cfg d ≠ "" := by
  rcases currentAlignType_mem_or_default cfg d with h | h
  · intro he
    have := mem_availableAlignTypes cfg h
    rw [he] at this
    revert this; decide
  · rw [h]; exact userDefaultAlignType_ne_empty cfg

/-- Re-reading a value already produced by `currentType` gives it back
unchanged. -/
theorem currentType_fix (cfg : Config) (d e : NormData)
    (he : e.alert = currentType cfg d) :
    currentType cfg e = currentType cfg d := by
  rw [currentType_eq, he]
  rcases currentType_mem_or_default cfg d with h | h
  · rw [if_pos h]
  · rw [h]
    rw [ite_self]

theorem currentStyle_fix (cfg : Config) (d e : NormData)
    (he : e.alertStyle = currentStyle cfg d) :
    currentStyle cfg e = currentStyle cfg d := by
  rw [currentStyle_eq, he]
  rcases currentStyle_mem_or_default cfg d with h | h
  · rw [if_pos h]
  · rw [h]
    rw [ite_self]

theorem currentAlignType_fix (cfg : Config) (d e : NormData)
    (he : e.align = currentAlignType cfg d) :
    currentAlignType cfg e = currentAlignType cfg d := by
  rw [currentAlignType_eq, he]
  rcases currentAlignType_mem_or_default cfg d with h | h
  · rw [if_pos h]
  · rw [h]
    rw [ite_self]

/-- Characterization of a successful construction: the resulting block
carries the normalized data, the element's `innerHTML` equals the
normalized text and its classes are the content class plus the current
alignment class. -/
theorem loadBlock_ok (cfg : Config) (input : PersistedInput) (m : Bool)
    (b : Block) (hb : loadBlock cfg input m = .ok b) :
    ∃ d, _normalizeData cfg input = .ok d ∧
      b = { cfg := cfg, data := d, contentHTML := d.text
          , contentClasses :=
              classListAdd (classListAdd [] wrapperForAlertContent)
                (wrapperForAlignment (currentAlignType cfg d))
          , mounted := m } := by
  unfold loadBlock at hb
  cases hn : _normalizeData cfg input with
  | error e => rw [hn] at hb; cases hb
  | ok d =>
      refine ⟨d, rfl, ?_⟩
      rw [hn] at hb
      have := Except.ok.inj hb
      rw [← this]
      unfold getElementContent
      rw [if_empty_self]

/-- C5: reloading the result of `save` under the same configuration
reproduces the same observable state — `save` (which reads the text
from the live element and the three dimensions through the
re-validating getters) returns the same quadruple for the reloaded
block as for the original. -/
theorem load_save_roundtrip (cfg : Config) (input : PersistedInput)
    (m m' : Bool) (b b' : Block)
    (hb : loadBlock cfg input m = .ok b)
    (hb' : loadBlock cfg (savedToInput (save b)) m' = .ok b') :
    save b' = save b := by
  obtain ⟨d, _, hbeq⟩ := loadBlock_ok cfg input m b hb
  obtain ⟨d', hn', hbeq'⟩ :=
    loadBlock_ok cfg (savedToInput (save b)) m' b' hb'
  have hd' : d' = save b := by
    have : _normalizeData cfg (savedToInput (save b)) =
        .ok { text := jsOr (some (save b).text) ""
            , alert := jsOr (some (save b).alert) (userDefaultType cfg)
            , alertStyle := jsOr (some (save b).alertStyle) (userDefaultStyle cfg)
            , align := jsOr (some (save b).align) (userDefaultAlignType cfg) } := rfl
    rw [this] at hn'
    have h2 := Except.ok.inj hn'
    rw [← h2]
    have ht : jsOr (some (save b).text) "" = (save b).text := by
      simp [jsOr, if_empty_self]
    have ha : jsOr (some (save b).alert) (userDefaultType cfg) =
        (save b).alert := by
      have : (save b).alert ≠ "" := by
        rw [hbeq]; exact currentType_ne_empty cfg d
      simp [jsOr, this]
    have hs : jsOr (some (save b).alertStyle) (userDefaultStyle cfg) =
        (save b).alertStyle := by
      have : (save b).alertStyle ≠ "" := by
        rw [hbeq]; exact currentStyle_ne_empty cfg d
      simp [jsOr, this]
    have hg : jsOr (some (save b).align) (userDefaultAlignType cfg) =
        (save b).align := by
      have : (save b).align ≠ "" := by
        rw [hbeq]; exact currentAlignType_ne_empty cfg d
      simp [jsOr, this]
    rw [ht, ha, hs, hg]
  subst hbeq
  subst hbeq'
  subst hd'
  unfold save
  simp only [NormData.mk.injEq, true_and]
  refine ⟨?_, ?_, ?_⟩
  · exact currentType_fix cfg _ _ rfl
  · exact currentStyle_fix cfg _ _ rfl
  · exact currentAlignType_fix cfg _ _ rfl

/-- C5 witness: a block persisted with an out-of-range type under a
restricting configuration — save, reload, save again gives the same
saved quadruple. -/
theorem load_save_roundtrip_witness :
    loadBlock { alertTypes := some ["success"] }
        (.jobject { text := some "x", alert := some "danger" }) false =
      Except.ok
        { cfg := { alertTypes := some ["success"] }
        , data := { text := "x", alert := "danger"
                  , alertStyle := "pastel", align := "left" }
        , contentHTML := "x"
        , contentClasses := ["ce-alert-content", "ce-alert-align-left"]
        , mounted := false } ∧
    loadBlock { alertTypes := some ["success"] }
        (savedToInput (save
          { cfg := { alertTypes := some ["success"] }
          , data := { text := "x", alert := "danger"
                    , alertStyle := "pastel", align := "left" }
          , contentHTML := "x"
          , contentClasses := ["ce-alert-content", "ce-alert-align-left"]
          , mounted := false })) false =
      Except.ok
        { cfg := { alertTypes := some ["success"] }
        , data := { text := "x", alert := "info"
                  , alertStyle := "pastel", align := "left" }
        , contentHTML := "x"
        , contentClasses := ["ce-alert-content", "ce-alert-align-left"]
        , mounted := false } ∧
    save
        { cfg := { alertTypes := some ["success"] }
        , data := { text := "x", alert := "info"
                  , alertStyle := "pastel", align := "left" }
        , contentHTML := "x"
        , contentClasses := ["ce-alert-content", "ce-alert-align-left"]
        , mounted := false } =
      save
        { cfg := { alertTypes := some ["success"] }
        , data := { text := "x", alert := "danger"
                  , alertStyle := "pastel", align := "left" }
        , contentHTML := "x"
        , contentClasses := ["ce-alert-content", "ce-alert-align-left"]
        , mounted := false } :=
  ⟨rfl, rfl,
   load_save_roundtrip { alertTypes := some ["success"] }
     (.jobject { text := some "x", alert := some "danger" })
     false false _ _ rfl rfl⟩

/-- C8 (Scenario 4): `_setAlertType` first captures the live editable
surface's content into `_data.text`, so an immediate `save()` after
`setType("success")` (with `"success"` available) returns
`alert = "success"` and a text equal to the surface content at call
time — whether or not the element was mounted and rebuilt. -/
theorem setType_captures_live_text (b : Block)
    (h : "success" ∈ availableTypes b.cfg) :
    (_setAlertType b (some "success")).data.text = b.contentHTML ∧
    (save (_setAlertType b (some "success"))).alert = "success" ∧
    (save (_setAlertType b (some "success"))).text = b.contentHTML := by
  have hjs : jsOr (some "success") (userDefaultType b.cfg) = "success" := by
    simp [jsOr]
  cases hm : b.mounted <;>
    simp [_setAlertType, save, getElementContent, hm, hjs, if_empty_self,
      currentType_eq, h]

/-- C8 witness: a mounted block constructed with text `"construction"`
whose surface has since been edited to `"live edits"` — saving right
after `setType("success")` returns the live text, not the construction
text. -/
theorem setType_captures_live_text_witness :
    (_setAlertType
        { cfg := {}
        , data := { text := "construction", alert := "info"
                  , alertStyle := "pastel", align := "left" }
        , contentHTML := "live edits"
        , contentClasses := ["ce-alert-content", "ce-alert-align-left"]
        , mounted := true } (some "success")).data.text = "live edits" ∧
    (save (_setAlertType
        { cfg := {}
        , data := { text := "construction", alert := "info"
                  , alertStyle := "pastel", align := "left" }
        , contentHTML := "live edits"
        , contentClasses := ["ce-alert-content", "ce-alert-align-left"]
        , mounted := true } (some "success"))).alert = "success" ∧
    (save (_setAlertType
        { cfg := {}
        , data := { text := "construction", alert := "info"
                  , alertStyle := "pastel", align := "left" }
        , contentHTML := "live edits"
        , contentClasses := ["ce-alert-content", "ce-alert-align-left"]
        , mounted := true } (some "success"))).text = "live edits" :=
  setType_captures_live_text _ (by decide)

theorem classListRemove_not_mem (cs : List String) (c : String) :
    c ∉ classListRemove cs c := by
  unfold classListRemove
  intro h
  have := List.of_mem_filter h
  simp at this

theorem classListAdd_remove (cs : List String) (c : String) :
    classListAdd (classListRemove cs c) c = classListRemove cs c ++ [c] := by
  unfold classListAdd
  rw [if_neg (classListRemove_not_mem cs c)]

theorem classListRemove_append (cs ds : List String) (c : String) :
    classListRemove (cs ++ ds) c =
      classListRemove cs c ++ classListRemove ds c :=
  List.filter_append cs ds

theorem classListRemove_single_ne (a c : String) (h : ¬ (a = c)) :
    classListRemove [a] c = [a] := by
  unfold classListRemove
  simp [h]

theorem removeChain_eq_filter (cs : List String) :
    classListRemove (classListRemove (classListRemove (classListRemove cs
      (wrapperForAlignment "left")) (wrapperForAlignment "center"))
      (wrapperForAlignment "right")) (wrapperForAlignment "justify") =
    cs.filter (fun c => decide (c ∉ ALIGN_TYPES.map wrapperForAlignment)) := by
  unfold classListRemove
  rw [List.filter_filter, List.filter_filter, List.filter_filter]
  apply List.filter_congr
  intro c _
  by_cases h1 : c = "ce-alert-align-left" <;>
  by_cases h2 : c = "ce-alert-align-center" <;>
  by_cases h3 : c = "ce-alert-align-right" <;>
  by_cases h4 : c = "ce-alert-align-justify" <;>
  simp [ALIGN_TYPES, h1, h2, h3, h4, wrapperForAlignment]
theorem setAlign_classes (b : Block) (x : String) (hx : x ∈ ALIGN_TYPES) :
    (_setAlignType b x).contentClasses =
      b.contentClasses.filter
        (fun c => decide (c ∉ ALIGN_TYPES.map wrapperForAlignment)) ++
      [wrapperForAlignment x] := by
  fin_cases hx <;>
    simp only [_setAlignType, ALIGN_TYPES, List.foldl] <;>
    (try simp only [String.reduceEq, if_true, if_false, reduceIte]) <;>
    rw [classListAdd_remove] <;>
    (try simp only [classListRemove_append]) <;>
    rw [removeChain_eq_filter] <;>
    (try congr 1)

/-- C9: `_setAlignType` is idempotent on the content element's class
list for any Catalog alignment: a second identical call leaves the
class list unchanged, and after one call the element carries exactly
one alignment class — the one for the requested alignment. -/
theorem setAlign_idempotent (b : Block) (x : String) (hx : x ∈ ALIGN_TYPES) :
    (_setAlignType (_setAlignType b x) x).contentClasses =
      (_setAlignType b x).contentClasses ∧
    (_setAlignType b x).contentClasses.filter
        (fun c => decide (c ∈ ALIGN_TYPES.map wrapperForAlignment)) =
      [wrapperForAlignment x] := by
  have hmem : wrapperForAlignment x ∈ ALIGN_TYPES.map wrapperForAlignment :=
    List.mem_map_of_mem _ hx
  have h1 := setAlign_classes b x hx
  have h2 := setAlign_classes (_setAlignType b x) x hx
  constructor
  · rw [h2, h1, List.filter_append]
    have hF : (b.contentClasses.filter
          (fun c => decide (c ∉ ALIGN_TYPES.map wrapperForAlignment))).filter
          (fun c => decide (c ∉ ALIGN_TYPES.map wrapperForAlignment)) =
        b.contentClasses.filter
          (fun c => decide (c ∉ ALIGN_TYPES.map wrapperForAlignment)) := by
      rw [List.filter_filter]
      apply List.filter_congr
      intro c _
      rw [Bool.and_self]
    have hW : ([wrapperForAlignment x].filter
          (fun c => decide (c ∉ ALIGN_TYPES.map wrapperForAlignment))) = [] := by
      apply List.filter_eq_nil_iff.mpr
      intro a ha
      rw [List.mem_singleton] at ha
      subst ha
      simp [hmem]
    rw [hF, hW, List.append_nil]
  · rw [h1, List.filter_append]
    have hF : (b.contentClasses.filter
          (fun c => decide (c ∉ ALIGN_TYPES.map wrapperForAlignment))).filter
          (fun c => decide (c ∈ ALIGN_TYPES.map wrapperForAlignment)) = [] := by
      rw [List.filter_filter]
      apply List.filter_eq_nil_iff.mpr
      intro c _
      by_cases h : c ∈ ALIGN_TYPES.map wrapperForAlignment <;> simp [h]
    have hW : ([wrapperForAlignment x].filter
          (fun c => decide (c ∈ ALIGN_TYPES.map wrapperForAlignment))) =
        [wrapperForAlignment x] := by
      simp
      exact ⟨x, hx, rfl⟩
    rw [hF, hW, List.nil_append]

/-- C9 witness (Scenario 5): `setAlignment("right")` twice on a block
leaves exactly the single alignment class `ce-alert-align-right`. -/
theorem setAlign_idempotent_witness :
    (_setAlignType (_setAlignType
        { cfg := {}
        , data := { text := "", alert := "info"
                  , alertStyle := "pastel", align := "left" }
        , contentHTML := ""
        , contentClasses := ["ce-alert-content", "ce-alert-align-left"]
        , mounted := true } "right") "right").contentClasses =
      (_setAlignType
        { cfg := {}
        , data := { text := "", alert := "info"
                  , alertStyle := "pastel", align := "left" }
        , contentHTML := ""
        , contentClasses := ["ce-alert-content", "ce-alert-align-left"]
        , mounted := true } "right").contentClasses ∧
    (_setAlignType
        { cfg := {}
        , data := { text := "", alert := "info"
                  , alertStyle := "pastel", align := "left" }
        , contentHTML := ""
        , contentClasses := ["ce-alert-content", "ce-alert-align-left"]
        , mounted := true } "right").contentClasses.filter
        (fun c => decide (c ∈ ALIGN_TYPES.map wrapperForAlignment)) =
      [wrapperForAlignment "right"] :=
  setAlign_idempotent _ "right" (by decide)
theorem applyOp_cfg (b : Block) (op : TuneOp) : (applyOp b op).cfg = b.cfg := by
  cases op with
  | setType s =>
      show (_setAlertType b s).cfg = b.cfg
      unfold _setAlertType
      split <;> rfl
  | setStyle s =>
      show (_setAlertStyle b s).cfg = b.cfg
      unfold _setAlertStyle
      split <;> rfl
  | setAlign s => rfl

theorem applyOps_cfg (b : Block) (ops : List TuneOp) :
    (applyOps b ops).cfg = b.cfg := by
  induction ops generalizing b with
  | nil => rfl
  | cons op ops ih =>
      show (applyOps (applyOp b op) ops).cfg = b.cfg
      rw [ih, applyOp_cfg]

/-- C10: after any sequence of settings actions with arbitrary string
arguments (the setters store their argument unchecked), `save()` still
returns, for each dimension, either a member of that dimension's
available set or its resolved default — the re-validating read getters
restore the invariant. -/
theorem save_revalidated_after_setters (b : Block) (ops : List TuneOp) :
    ((save (applyOps b ops)).alert ∈ availableTypes b.cfg ∨
      (save (applyOps b ops)).alert = userDefaultType b.cfg) ∧
    ((save (applyOps b ops)).alertStyle ∈ availableStyles b.cfg ∨
      (save (applyOps b ops)).alertStyle = userDefaultStyle b.cfg) ∧
    ((save (applyOps b ops)).align ∈ availableAlignTypes b.cfg ∨
      (save (applyOps b ops)).align = userDefaultAlignType b.cfg) := by
  have hc := applyOps_cfg b ops
  unfold save
  rw [hc]
  exact ⟨currentType_mem_or_default _ _,
    currentStyle_mem_or_default _ _,
    currentAlignType_mem_or_default _ _⟩
theorem filter_beq_of_nodup (l : List String) (a : String)
    (hn : l.Nodup) (h : a ∈ l) :
    l.filter (fun x => x == a) = [a] := by
  induction l with
  | nil => cases h
  | cons x xs ih =>
      rw [List.nodup_cons] at hn
      by_cases hx : x = a
      · subst hx
        have hnil : xs.filter (fun y => y == x) = [] := by
          apply List.filter_eq_nil_iff.mpr
          intro y hy hbeq
          exact hn.1 (beq_iff_eq.mp hbeq ▸ hy)
        rw [List.filter_cons]
        simp [hnil]
      · rw [List.filter_cons]
        have hbx : (x == a) = false := beq_eq_false_iff_ne.mpr hx
        have h2 : a ∈ xs := by
          rcases List.mem_cons.mp h with h1 | h1
          · exact absurd h1.symm hx
          · exact h1
        simp [hbx]
        exact ih hn.2 h2

theorem availableTypes_sublist (cfg : Config) :
    List.Sublist (availableTypes cfg) ALERT_TYPES := by
  unfold availableTypes
  cases hc : cfg.alertTypes with
  | none => exact List.Sublist.refl _
  | some allowed => exact List.filter_sublist _

theorem availableStyles_sublist (cfg : Config) :
    List.Sublist (availableStyles cfg) ALERT_STYLES := by
  unfold availableStyles
  cases hc : cfg.alertStyles with
  | none => exact List.Sublist.refl _
  | some allowed => exact List.filter_sublist _

theorem availableAlignTypes_sublist (cfg : Config) :
    List.Sublist (availableAlignTypes cfg) ALIGN_TYPES := by
  unfold availableAlignTypes
  cases hc : cfg.alignTypes with
  | none => exact List.Sublist.refl _
  | some allowed => exact List.filter_sublist _

theorem availableTypes_nodup (cfg : Config) : (availableTypes cfg).Nodup :=
  (by decide : ALERT_TYPES.Nodup).sublist (availableTypes_sublist cfg)

theorem availableStyles_nodup (cfg : Config) : (availableStyles cfg).Nodup :=
  (by decide : ALERT_STYLES.Nodup).sublist (availableStyles_sublist cfg)

theorem availableAlignTypes_nodup (cfg : Config) :
    (availableAlignTypes cfg).Nodup :=
  (by decide : ALIGN_TYPES.Nodup).sublist (availableAlignTypes_sublist cfg)

/-- C6 (amended): whenever each dimension's current value is a member
of its available set (always the case unless the resolved default
itself falls outside the available set — the documented edge case),
each settings-menu group contains exactly one active action, and its
associated value is the current state value for that dimension. -/
theorem menu_single_active (cfg : Config) (d : NormData)
    (ht : currentType cfg d ∈ availableTypes cfg)
    (hs : currentStyle cfg d ∈ availableStyles cfg)
    (ha : currentAlignType cfg d ∈ availableAlignTypes cfg) :
    (renderSettings cfg d).filter
        (fun s => s.toggle == "alert" && s.isActive) =
      [{ value := currentType cfg d, isActive := true
       , closeOnActivate := true, toggle := "alert" }] ∧
    (renderSettings cfg d).filter
        (fun s => s.toggle == "alert-style" && s.isActive) =
      [{ value := currentStyle cfg d, isActive := true
       , closeOnActivate := true, toggle := "alert-style" }] ∧
    (renderSettings cfg d).filter
        (fun s => s.toggle == "align" && s.isActive) =
      [{ value := currentAlignType cfg d, isActive := true
       , closeOnActivate := true, toggle := "align" }] := by
  unfold renderSettings
  rw [List.filter_append, List.filter_append, List.filter_append,
    List.filter_append, List.filter_append, List.filter_append]
  rw [List.filter_map, List.filter_map, List.filter_map, List.filter_map,
    List.filter_map, List.filter_map, List.filter_map, List.filter_map,
    List.filter_map]
  refine ⟨?_, ?_, ?_⟩
  · simp only [Function.comp_def,
      show ("alert" == "alert") = true from rfl,
      show ("alert-style" == "alert") = false from rfl,
      show ("align" == "alert") = false from rfl,
      Bool.true_and, Bool.false_and, List.filter_false,
      List.map_nil, List.nil_append, List.append_nil]
    rw [filter_beq_of_nodup _ _ (availableTypes_nodup cfg) ht]
    simp [beq_self_eq_true]
  · simp only [Function.comp_def,
      show ("alert" == "alert-style") = false from rfl,
      show ("alert-style" == "alert-style") = true from rfl,
      show ("align" == "alert-style") = false from rfl,
      Bool.true_and, Bool.false_and, List.filter_false,
      List.map_nil, List.nil_append, List.append_nil]
    rw [filter_beq_of_nodup _ _ (availableStyles_nodup cfg) hs]
    simp [beq_self_eq_true]
  · simp only [Function.comp_def,
      show ("alert" == "align") = false from rfl,
      show ("alert-style" == "align") = false from rfl,
      show ("align" == "align") = true from rfl,
      Bool.true_and, Bool.false_and, List.filter_false,
      List.map_nil, List.nil_append, List.append_nil]
    rw [filter_beq_of_nodup _ _ (availableAlignTypes_nodup cfg) ha]
    simp [beq_self_eq_true]

/-- C6 witness: under the default configuration, the freshly loaded
state has exactly one active action per group, carrying the current
values `"info"`, `"pastel"`, `"left"`. -/
theorem menu_single_active_witness :
    (renderSettings {}
        { text := "", alert := "info", alertStyle := "pastel", align := "left" }).filter
        (fun s => s.toggle == "alert" && s.isActive) =
      [{ value := "info", isActive := true
       , closeOnActivate := true, toggle := "alert" }] ∧
    (renderSettings {}
        { text := "", alert := "info", alertStyle := "pastel", align := "left" }).filter
        (fun s => s.toggle == "alert-style" && s.isActive) =
      [{ value := "pastel", isActive := true
       , closeOnActivate := true, toggle := "alert-style" }] ∧
    (renderSettings {}
        { text := "", alert := "info", alertStyle := "pastel", align := "left" }).filter
        (fun s => s.toggle == "align" && s.isActive) =
      [{ value := "left", isActive := true
       , closeOnActivate := true, toggle := "align" }] :=
  menu_single_active {}
    { text := "", alert := "info", alertStyle := "pastel", align := "left" }
    (by decide) (by decide) (by decide)

/-- C6 counterexample: when the configuration restricts `alertTypes` to
`["success"]` (excluding the resolved default `"info"`), the state
produced by loading empty data has NO active action in the `'alert'`
group — the claimed "exactly one" fails. -/
theorem menu_single_active_counterexample :
    _normalizeData { alertTypes := some ["success"] } (.jobject {}) =
      Except.ok { text := "", alert := "info"
                , alertStyle := "pastel", align := "left" } ∧
    (renderSettings { alertTypes := some ["success"] }
        { text := "", alert := "info"
        , alertStyle := "pastel", align := "left" }).filter
        (fun s => s.toggle == "alert" && s.isActive) = [] :=
  ⟨rfl, rfl⟩
end Alert
